import Mathlib

/-!
Shallow embedding of the span/metric decision engine and operation wrappers
of the otelsql instrumentation library (package `otelsql`), together with
proofs of the specification claims.

Modelling conventions:
* Go `error` values become `Option GoError` (`none` = nil error); the driver
  sentinels `driver.ErrSkip`, `driver.ErrBadConn`, `driver.ErrRemoveArgument`
  and `io.EOF` are distinct constructors, every other error is `named s`
  where `s` is the fully-qualified dynamic type name computed by the
  reflection in `internal/semconv.errorType` (empty string for a name the
  reflection cannot produce).
* The telemetry SDK is a passive sink: calls into it (span start, record
  error, set status, add event, end, histogram record) become events in a
  trace (`List TEvent`), and wrappers return the trace they emit.
* `context.Context` carries no data any claim depends on, so it is dropped
  from signatures; the one context-dependent fact the transaction wrapper
  reads (`trace.SpanContextFromContext(ctx).IsValid()`) is passed as a Bool.
* Durations are modelled in nanoseconds (`Nat`), histogram values as `ℚ`
  (Go computes them in float64; the conversions ns→ms and ns→s are exact
  divisions here).
* Go slices (for the frame-effect claim about `cfg.Attributes`) are modelled
  explicitly as views `(arr, off, len, cap)` into a heap of backing arrays,
  with Go's `append` semantics: write in place when capacity suffices,
  reallocate otherwise.
-/

namespace Otelsql

/-- Methods are strings in the source (`type Method string`). -/
abbrev Method := String

/-- MethodConnectorConnect from methods.go. -/
def MethodConnectorConnect : Method := "sql.connector.connect"

/-- MethodRows from methods.go. -/
def MethodRows : Method := "sql.rows"

/-- MethodTxCommit from methods.go. -/
def MethodTxCommit : Method := "sql.tx.commit"

/-- MethodTxRollback from methods.go. -/
def MethodTxRollback : Method := "sql.tx.rollback"

/-- EventRowsNext from methods.go. -/
def EventRowsNext : String := "sql.rows.next"

/-- An OpenTelemetry attribute.KeyValue, specialised to the string values
this library produces. -/
structure Attr where
  key : String
  value : String
deriving DecidableEq, Repr

/-- A non-nil Go error value. The three driver sentinels and io.EOF are
identity-comparable singletons; `named s` stands for any other error whose
reflected fully-qualified type name is `s` (possibly empty). -/
inductive GoError where
  | errSkip
  | errBadConn
  | errRemoveArgument
  | eof
  | named (typeName : String)
deriving DecidableEq, Repr

/-- driver.Value: opaque to all of the instrumented logic; a string token
suffices for the embedding. -/
abbrev Value := String

/-- driver.NamedValue. -/
structure NamedValue where
  name : String
  ordinal : Int
  value : Value
deriving DecidableEq, Repr

/-- internal/semconv.OTelSemConvStabilityOptInType: the three-way
semantic-convention stability mode (legacy-only / dual-emit / stable-only). -/
inductive OptInType where
  | optInNone
  | optInDup
  | optInStable
deriving DecidableEq, Repr

/-- Span status codes (codes.Unset / codes.Error / codes.Ok). -/
inductive SpanStatus where
  | unset
  | error
  | ok
deriving DecidableEq, Repr

/-- The two operation-latency histograms of the instruments struct:
the legacy latency instrument (milliseconds) and the stable duration
instrument (seconds). -/
inductive Instrument where
  | legacyLatency
  | duration
deriving DecidableEq, Repr

/-- One observable call into the telemetry SDK or the wrapped driver. -/
inductive TEvent where
  | spanStart (name : String) (attrs : List Attr)
  | spanRecordError (err : GoError)
  | spanSetStatus (s : SpanStatus)
  | spanAddEvent (name : String)
  | spanEnd
  | delegateCall (name : String)
  | metricInvoke (err : Option GoError)
  | metricRecord (instr : Instrument) (value : ℚ) (attrs : List Attr)
deriving DecidableEq, Repr

/-- SpanOptions: the union of the switch fields the embedded operations
read. `allowRoot` belongs to the transaction-wrapper-era config,
the omit switches and `spanFilter` to the later config; both structs are in
the source. Context parameters of the function-valued options are dropped. -/
structure SpanOptions where
  ping : Bool := false
  rowsNext : Bool := false
  disableErrSkip : Bool := false
  disableQuery : Bool := false
  recordError : Option (Option GoError → Bool) := none
  allowRoot : Bool := false
  omitConnResetSession : Bool := false
  omitConnPrepare : Bool := false
  omitConnQuery : Bool := false
  omitRows : Bool := false
  omitConnectorConnect : Bool := false
  spanFilter : Option (Method → String → List NamedValue → Bool) := none

/-- config: the fields of the `config` struct that the embedded operations
read. `dbQueryTextAttributes` is the stored `DBQueryTextAttributes`
function field; the constructor that wires it to
`internal/semconv.NewDBQueryTextAttributes(SemConvStabilityOptIn)` is not
among the source files, so theorems that need the wiring take it as a
hypothesis. -/
structure Config where
  attributes : List Attr := []
  spanNameFormatter : Method → String → String := fun method _ => method
  spanOptions : SpanOptions := {}
  attributesGetter : Option (Method → String → List NamedValue → List Attr) := none
  instrumentAttributesGetter : Option (Method → String → List NamedValue → List Attr) := none
  instrumentErrorAttributesGetter : Option (GoError → List Attr) := none
  disableSkipErrMeasurement : Bool := false
  semConvStabilityOptIn : OptInType := .optInNone
  dbQueryTextAttributes : String → List Attr := fun _ => []

/-- filterSpan from utils.go: true when SpanFilter is nil, otherwise the
predicate's value on the call's inputs. -/
def filterSpan (spanOptions : SpanOptions) (method : Method) (query : String)
    (args : List NamedValue) : Bool :=
  match spanOptions.spanFilter with
  | none => true
  | some f => f method query args

/-- recordSpanError from utils.go, returning the span-method calls it makes
(`[]` when it is a no-op). `spanPresent = false` models a nil span. -/
def recordSpanError (spanPresent : Bool) (opts : SpanOptions)
    (err : Option GoError) : List TEvent :=
  if spanPresent = false then []
  else if (match opts.recordError with
           | some f => !f err
           | none => false) then []
  else match err with
    | none => []
    | some GoError.errSkip =>
        if !opts.disableErrSkip then
          [.spanRecordError .errSkip, .spanSetStatus .error]
        else []
    | some e => [.spanRecordError e, .spanSetStatus .error]

/-- internal/semconv.errorType from attributes.go: the three driver
sentinels get fixed interned identifiers; any other error is classified by
its reflected type. io.EOF is a pointer to errors.errorString, for which
reflect yields empty PkgPath and Name, so the code falls back to
`t.String()`, giving "*errors.errorString". A `named s` error carries the
name the reflection computes; an empty name yields semconv.ErrorTypeOther
("_OTHER"). -/
def errorType : Option GoError → List Attr
  | none => []
  | some .errBadConn => [⟨"error.type", "database/sql/driver.ErrBadConn"⟩]
  | some .errSkip => [⟨"error.type", "database/sql/driver.ErrSkip"⟩]
  | some .errRemoveArgument => [⟨"error.type", "database/sql/driver.ErrRemoveArgument"⟩]
  | some .eof => [⟨"error.type", "*errors.errorString"⟩]
  | some (.named s) => if s = "" then [⟨"error.type", "_OTHER"⟩] else [⟨"error.type", s⟩]

/-- Modelled from the spec: `internal/semconv.ErrorTypeAttributes`, called by
recordDuration in utils.go, is absent from the source files (only its
callers and the classification helper `errorType` are present). Per §4.1 of
the spec it is exactly the best-effort dynamic-type classification that
`errorType` implements. -/
def ErrorTypeAttributes (err : Option GoError) : List Attr :=
  errorType err

/-- Status string chosen by recordLegacyLatency in utils.go: "error" for a
non-nil error, except that DisableSkipErrMeasurement turns driver.ErrSkip
into "ok"; "ok" for nil. -/
def legacyStatus (cfg : Config) (err : Option GoError) : String :=
  match err with
  | some e =>
      if cfg.disableSkipErrMeasurement ∧ e = .errSkip then "ok" else "error"
  | none => "ok"

/-- recordLegacyLatency from utils.go: appends the method and status tags
and records duration·10³ (seconds → milliseconds; here ns/10⁶) on the
legacy latency instrument. -/
def recordLegacyLatency (cfg : Config) (durationNs : ℕ)
    (attributes : List Attr) (method : Method) (err : Option GoError) : TEvent :=
  let attributes := attributes ++ [⟨"method", method⟩]
  let attributes := attributes ++ [⟨"status", legacyStatus cfg err⟩]
  .metricRecord .legacyLatency ((durationNs : ℚ) / 1000000) attributes

/-- recordDuration from utils.go: appends db.operation.name, then the
error-type attributes when the error is non-nil and not suppressed by
DisableSkipErrMeasurement∧ErrSkip, and records the duration in seconds
(here ns/10⁹) on the stable duration instrument. -/
def recordDuration (cfg : Config) (durationNs : ℕ)
    (attributes : List Attr) (method : Method) (err : Option GoError) : TEvent :=
  let attributes := attributes ++ [⟨"db.operation.name", method⟩]
  let attributes := attributes ++
    (match err with
     | some e =>
         if cfg.disableSkipErrMeasurement ∧ e = .errSkip then []
         else ErrorTypeAttributes (some e)
     | none => [])
  .metricRecord .duration ((durationNs : ℚ) / 1000000000) attributes

/-- The body of the closure returned by recordMetric in utils.go, invoked
with the operation's error. `durationNs` is the elapsed time the closure
measures between its creation and its invocation. Builds the base attribute
list (config attributes, then InstrumentAttributesGetter, then
InstrumentErrorAttributesGetter when the error is non-nil) and dispatches
on the semantic-convention stability mode. -/
def recordMetricInvoke (cfg : Config) (method : Method) (query : String)
    (args : List NamedValue) (durationNs : ℕ) (err : Option GoError) :
    List TEvent :=
  let attributes := cfg.attributes
  let attributes := attributes ++
    (match cfg.instrumentAttributesGetter with
     | some g => g method query args
     | none => [])
  let attributes := attributes ++
    (match err, cfg.instrumentErrorAttributesGetter with
     | some e, some g => g e
     | _, _ => [])
  match cfg.semConvStabilityOptIn with
  | .optInStable => [recordDuration cfg durationNs attributes method err]
  | .optInDup =>
      [recordLegacyLatency cfg durationNs attributes method err,
       recordDuration cfg durationNs attributes method err]
  | .optInNone => [recordLegacyLatency cfg durationNs attributes method err]

/-- The attribute list createSpan (utils.go) hands to Tracer.Start: config
attributes, then the DBQueryTextAttributes of the query when
enableDBStatement is set and DisableQuery is clear, then the
AttributesGetter result when a getter is configured. This is the value-level
contents; the slice-level aliasing behaviour is modelled separately below. -/
def createSpanAttrList (cfg : Config) (enableDBStatement : Bool)
    (method : Method) (query : String) (args : List NamedValue) : List Attr :=
  let attrs := cfg.attributes
  let attrs :=
    if enableDBStatement ∧ ¬cfg.spanOptions.disableQuery then
      attrs ++ cfg.dbQueryTextAttributes query
    else attrs
  let attrs :=
    match cfg.attributesGetter with
    | some g => attrs ++ g method query args
    | none => attrs
  attrs

/-- internal/semconv.NewDBQueryTextAttributes from attributes.go: dual-emit
yields the legacy db.statement and the stable db.query.text attribute,
stable-only just db.query.text, and the default (legacy-only or unknown)
just db.statement, each valued with the literal query string. -/
def NewDBQueryTextAttributes (optInType : OptInType) :
    String → List Attr :=
  match optInType with
  | .optInDup => fun query =>
      [⟨"db.statement", query⟩, ⟨"db.query.text", query⟩]
  | .optInStable => fun query => [⟨"db.query.text", query⟩]
  | .optInNone => fun query => [⟨"db.statement", query⟩]

/-- otConnector.Connect: registers the metric closure invocation as a
deferred call, creates a span unless OmitConnectorConnect is set or
filterSpan rejects the call, delegates, records the delegate error on the
span, and (LIFO defers) ends the span and then fires the metric closure.
Returns the trace, whether a wrapped connection is returned, and the error
handed back to the caller. `delegateErr` is the wrapped connector's result. -/
def connectorConnect (cfg : Config) (delegateErr : Option GoError) :
    List TEvent × Bool × Option GoError :=
  let method := MethodConnectorConnect
  let spanCreated :=
    !cfg.spanOptions.omitConnectorConnect &&
      filterSpan cfg.spanOptions method "" []
  let startEvents :=
    if spanCreated then
      [TEvent.spanStart (cfg.spanNameFormatter method "")
        (createSpanAttrList cfg false method "" [])]
    else []
  match delegateErr with
  | some e =>
      (startEvents ++ [.delegateCall "Connect"] ++
         recordSpanError spanCreated cfg.spanOptions (some e) ++
         (if spanCreated then [.spanEnd] else []) ++
         [.metricInvoke (some e)],
       false, some e)
  | none =>
      (startEvents ++ [.delegateCall "Connect"] ++
         (if spanCreated then [.spanEnd] else []) ++
         [.metricInvoke none],
       true, none)

/-- The transient state of an otRows wrapper: whether a span was opened at
creation, and the shared config (the metric closure is captured at creation
and fires at Close). -/
structure OtRows where
  spanPresent : Bool
  cfg : Config

/-- newRows from rows.go: captures the metric closure, then opens the rows
span unless OmitRows is set or filterSpan rejects `(MethodRows, "", nil)`;
returns the creation-time trace and the wrapper state. -/
def newRows (cfg : Config) : List TEvent × OtRows :=
  let method := MethodRows
  let spanCreated :=
    !cfg.spanOptions.omitRows && filterSpan cfg.spanOptions method "" []
  ((if spanCreated then
      [TEvent.spanStart (cfg.spanNameFormatter method "")
        (createSpanAttrList cfg false method "" [])]
    else []),
   ⟨spanCreated, cfg⟩)

/-- otRows.Close from rows.go: delegates, records a non-nil close error on
the span, then (deferred) ends the span if present and invokes the metric
closure with the close error. Returns the trace and the error returned to
the caller. -/
def rowsClose (r : OtRows) (delegateErr : Option GoError) :
    List TEvent × Option GoError :=
  let errEvents :=
    match delegateErr with
    | some e => recordSpanError r.spanPresent r.cfg.spanOptions (some e)
    | none => []
  ([TEvent.delegateCall "Close"] ++ errEvents ++
     (if r.spanPresent then [.spanEnd] else []) ++
     [.metricInvoke delegateErr],
   delegateErr)

/-- otRows.Next from rows.go: optionally adds the rows-next trace event,
delegates, and records any resulting error other than io.EOF on the span;
the delegate's error is returned unchanged. -/
def rowsNext (r : OtRows) (delegateErr : Option GoError) :
    List TEvent × Option GoError :=
  let pre :=
    if r.cfg.spanOptions.rowsNext ∧ r.spanPresent then
      [TEvent.spanAddEvent EventRowsNext]
    else []
  let errEvents :=
    match delegateErr with
    | none => []
    | some .eof => []
    | some e => recordSpanError r.spanPresent r.cfg.spanOptions (some e)
  (pre ++ [TEvent.delegateCall "Next"] ++ errEvents, delegateErr)

/-- otTx.Commit from the transaction wrapper source file: starts a span
(attributes exactly cfg.Attributes, name from the formatter) only when
AllowRoot is set or the stored context carries a valid span context, with a
deferred span.End; delegates; records a non-nil commit error on the span.
No metric closure exists in this wrapper. `ctxSpanValid` models
`trace.SpanContextFromContext(t.ctx).IsValid()`. -/
def txCommit (cfg : Config) (ctxSpanValid : Bool)
    (delegateErr : Option GoError) : List TEvent × Option GoError :=
  let spanCreated := cfg.spanOptions.allowRoot || ctxSpanValid
  let startEvents :=
    if spanCreated then
      [TEvent.spanStart (cfg.spanNameFormatter MethodTxCommit "")
        cfg.attributes]
    else []
  match delegateErr with
  | some e =>
      (startEvents ++ [.delegateCall "Commit"] ++
         recordSpanError spanCreated cfg.spanOptions (some e) ++
         (if spanCreated then [.spanEnd] else []),
       some e)
  | none =>
      (startEvents ++ [.delegateCall "Commit"] ++
         (if spanCreated then [.spanEnd] else []),
       none)

/-- otTx.Rollback from the transaction wrapper source file: identical shape
to Commit with the rollback method identifier. -/
def txRollback (cfg : Config) (ctxSpanValid : Bool)
    (delegateErr : Option GoError) : List TEvent × Option GoError :=
  let spanCreated := cfg.spanOptions.allowRoot || ctxSpanValid
  let startEvents :=
    if spanCreated then
      [TEvent.spanStart (cfg.spanNameFormatter MethodTxRollback "")
        cfg.attributes]
    else []
  match delegateErr with
  | some e =>
      (startEvents ++ [.delegateCall "Rollback"] ++
         recordSpanError spanCreated cfg.spanOptions (some e) ++
         (if spanCreated then [.spanEnd] else []),
       some e)
  | none =>
      (startEvents ++ [.delegateCall "Rollback"] ++
         (if spanCreated then [.spanEnd] else []),
       none)

/-- namedValueToValue from utils.go: walks the named arguments in order,
fails on the first one with a non-empty Name, otherwise collects the Values. -/
def namedValueToValue : List NamedValue → Except String (List Value)
  | [] => .ok []
  | param :: rest =>
      if param.name.length > 0 then
        .error "sql: driver does not support the use of Named Parameters"
      else
        match namedValueToValue rest with
        | .ok dargs => .ok (param.value :: dargs)
        | .error e => .error e

/-- A heap of Go backing arrays; a slice refers to one by index. -/
abbrev Mem := List (List Attr)

/-- A Go slice header: backing array index, offset, length, capacity. -/
structure Slice where
  arr : ℕ
  off : ℕ
  len : ℕ
  cap : ℕ
deriving DecidableEq, Repr

/-- Read a backing array from the heap. -/
def Mem.read (m : Mem) (i : ℕ) : List Attr :=
  m.getD i []

/-- Overwrite elements of an array starting at position `i`. -/
def writeAt (a : List Attr) (i : ℕ) (xs : List Attr) : List Attr :=
  a.take i ++ xs ++ a.drop (i + xs.length)

/-- The elements a slice views. -/
def sliceContents (m : Mem) (s : Slice) : List Attr :=
  ((m.read s.arr).drop s.off).take s.len

/-- Go append(s, xs...): when the spare capacity holds xs, the elements are
written in place into the (possibly shared) backing array; otherwise a
fresh backing array is allocated holding the old contents followed by xs
(the exact grown capacity is irrelevant to the claims, so the new array is
allocated exactly full). -/
def goAppend (m : Mem) (s : Slice) (xs : List Attr) : Mem × Slice :=
  if s.len + xs.length ≤ s.cap then
    (m.set s.arr (writeAt (m.read s.arr) (s.off + s.len) xs),
     ⟨s.arr, s.off, s.len + xs.length, s.cap⟩)
  else
    let newArr := sliceContents m s ++ xs
    (m ++ [newArr], ⟨m.length, 0, s.len + xs.length, newArr.length⟩)

/-- Go `make([]attribute.KeyValue, s.len, s.len+extraCap)` followed by
`copy` from s: a fresh zero-padded backing array holding the contents. -/
def goMakeCopy (m : Mem) (s : Slice) (extraCap : ℕ) : Mem × Slice :=
  let newArr := sliceContents m s ++ List.replicate extraCap (⟨"", ""⟩ : Attr)
  (m ++ [newArr], ⟨m.length, 0, s.len, s.len + extraCap⟩)

/-- Slice-level embedding of the attribute building in createSpan
(utils.go): `attrs := cfg.Attributes` aliases the config slice, then up to
two conditional appends. The attribute values produced by
`cfg.DBQueryTextAttributes(query)` and `cfg.AttributesGetter(...)` are
passed as precomputed lists, since only the slice mechanics matter here.
The same shape embeds the closure body of recordMetric (utils.go):
`attributes := cfg.Attributes` followed by the two conditional getter
appends. -/
def buildAttrsAliasing (m : Mem) (cfgAttrs : Slice)
    (addFirst : Bool) (firstAttrs : List Attr)
    (addSecond : Bool) (secondAttrs : List Attr) : Mem × Slice :=
  let p := (m, cfgAttrs)
  let p := if addFirst then goAppend p.1 p.2 firstAttrs else p
  let p := if addSecond then goAppend p.1 p.2 secondAttrs else p
  p

/-- Slice-level embedding of the attribute building in the copy-on-append
variant of createSpan / recordMetric: a fresh array of the config
attributes with 7 spare slots (estimatedAttributesOfGettersCount + 2),
then the same conditional appends. -/
def buildAttrsCopy (m : Mem) (cfgAttrs : Slice)
    (addFirst : Bool) (firstAttrs : List Attr)
    (addSecond : Bool) (secondAttrs : List Attr) : Mem × Slice :=
  let p := goMakeCopy m cfgAttrs 7
  let p := if addFirst then goAppend p.1 p.2 firstAttrs else p
  let p := if addSecond then goAppend p.1 p.2 secondAttrs else p
  p

/-- Event classifier: metric-closure invocations. -/
def isMetricInvoke : TEvent → Bool
  | .metricInvoke _ => true
  | _ => false

/-- Event classifier: span End calls. -/
def isSpanEnd : TEvent → Bool
  | .spanEnd => true
  | _ => false

/-- Event classifier: span Start calls. -/
def isSpanStart : TEvent → Bool
  | .spanStart _ _ => true
  | _ => false

/-- Event classifier: the span-mutating calls recordSpanError can make
(RecordError and SetStatus). -/
def isSpanErrorEvent : TEvent → Bool
  | .spanRecordError _ => true
  | .spanSetStatus _ => true
  | _ => false

/-- Event classifier: SetStatus calls with the given status. -/
def isSetStatus (st : SpanStatus) : TEvent → Bool
  | .spanSetStatus s => s = st
  | _ => false

/-- Attribute classifier: the two query-text keys (legacy db.statement and
stable db.query.text). -/
def isQueryTextAttr (a : Attr) : Bool :=
  a.key = "db.statement" ∨ a.key = "db.query.text"

/-- The base attribute list the recordMetric closure builds before
dispatching (utils.go): config attributes, then the
InstrumentAttributesGetter result, then the InstrumentErrorAttributesGetter
result when the error is non-nil. -/
def metricBaseAttrs (cfg : Config) (method : Method) (query : String)
    (args : List NamedValue) (err : Option GoError) : List Attr :=
  cfg.attributes ++
    (match cfg.instrumentAttributesGetter with
     | some g => g method query args
     | none => []) ++
    (match err, cfg.instrumentErrorAttributesGetter with
     | some e, some g => g e
     | _, _ => [])

/-- A dual-emit config with no extra attributes or getters (for concrete
evaluations). -/
def sampleDupConfig : Config :=
  { semConvStabilityOptIn := .optInDup }

/-- A stable-only config with DBQueryTextAttributes wired the way the
config constructor wires it (for concrete evaluations). -/
def sampleStableConfig : Config :=
  { semConvStabilityOptIn := .optInStable,
    dbQueryTextAttributes := NewDBQueryTextAttributes .optInStable }

/-- A one-array heap: config attributes [db.system=mysql] backed by an
array with one spare capacity slot, as Go's append-built config slices
commonly are. -/
def sampleMem : Mem :=
  [[⟨"db.system", "mysql"⟩, ⟨"", ""⟩]]

/-- The config-attributes slice into sampleMem: length 1, capacity 2. -/
def sampleSlice : Slice :=
  ⟨0, 0, 1, 2⟩

/-- recordSpanError either performs no span calls at all or performs
exactly a RecordError followed by SetStatus(Error) on the non-nil error. -/
theorem recordSpanError_eq_nil_or (p : Bool) (opts : SpanOptions)
    (err : Option GoError) :
    recordSpanError p opts err = [] ∨
      ∃ e, err = some e ∧
        recordSpanError p opts err =
          [.spanRecordError e, .spanSetStatus .error] := by
  unfold recordSpanError
  split
  · exact Or.inl rfl
  · split
    · exact Or.inl rfl
    · match err with
      | none => exact Or.inl rfl
      | some GoError.errSkip =>
          by_cases h : opts.disableErrSkip = true
          · simp [h]
          · simp at h
            simp [h]
      | some .errBadConn => exact Or.inr ⟨_, rfl, rfl⟩
      | some .errRemoveArgument => exact Or.inr ⟨_, rfl, rfl⟩
      | some .eof => exact Or.inr ⟨_, rfl, rfl⟩
      | some (.named s) => exact Or.inr ⟨_, rfl, rfl⟩

/-- recordSpanError never invokes the metric closure. -/
theorem recordSpanError_countP_metricInvoke (p : Bool) (opts : SpanOptions)
    (err : Option GoError) :
    (recordSpanError p opts err).countP isMetricInvoke = 0 := by
  rcases recordSpanError_eq_nil_or p opts err with h | ⟨e, _, h⟩ <;>
    simp [h, List.countP, List.countP.go, isMetricInvoke]

/-- recordSpanError never ends a span. -/
theorem recordSpanError_countP_spanEnd (p : Bool) (opts : SpanOptions)
    (err : Option GoError) :
    (recordSpanError p opts err).countP isSpanEnd = 0 := by
  rcases recordSpanError_eq_nil_or p opts err with h | ⟨e, _, h⟩ <;>
    simp [h, List.countP, List.countP.go, isSpanEnd]

/-- recordSpanError never starts a span. -/
theorem recordSpanError_countP_spanStart (p : Bool) (opts : SpanOptions)
    (err : Option GoError) :
    (recordSpanError p opts err).countP isSpanStart = 0 := by
  rcases recordSpanError_eq_nil_or p opts err with h | ⟨e, _, h⟩ <;>
    simp [h, List.countP, List.countP.go, isSpanStart]

/-- recordSpanError never sets an Ok status. -/
theorem recordSpanError_countP_okStatus (p : Bool) (opts : SpanOptions)
    (err : Option GoError) :
    (recordSpanError p opts err).countP (isSetStatus .ok) = 0 := by
  rcases recordSpanError_eq_nil_or p opts err with h | ⟨e, _, h⟩ <;>
    simp [h, List.countP, List.countP.go, isSetStatus]

/-- C4: recordSpanError(span, opts, err) is a no-op when span is nil, when
err is nil, or when opts.RecordError is set and returns false for err; if
err is driver.ErrSkip and opts.DisableErrSkip is true it is also a no-op;
in every other error case it records the error on the span and sets the
span status to Error, and it never sets an Ok status. -/
theorem claim_C4 (p : Bool) (opts : SpanOptions) (err : Option GoError) :
    (p = false → recordSpanError p opts err = []) ∧
    (err = none → recordSpanError p opts err = []) ∧
    (∀ f, opts.recordError = some f → f err = false →
       recordSpanError p opts err = []) ∧
    (err = some .errSkip → opts.disableErrSkip = true →
       recordSpanError p opts err = []) ∧
    (∀ e, p = true → err = some e →
       (opts.recordError = none ∨
         ∃ f, opts.recordError = some f ∧ f err = true) →
       ¬(e = .errSkip ∧ opts.disableErrSkip = true) →
       recordSpanError p opts err =
         [.spanRecordError e, .spanSetStatus .error]) ∧
    (recordSpanError p opts err).countP (isSetStatus .ok) = 0 := by
  refine ⟨?_, ?_, ?_, ?_, ?_, recordSpanError_countP_okStatus p opts err⟩
  · intro h
    simp [recordSpanError, h]
  · intro h
    subst h
    unfold recordSpanError
    split
    · rfl
    · split
      · rfl
      · rfl
  · intro f hf hfalse
    unfold recordSpanError
    split
    · rfl
    · split
      · rfl
      · rename_i hguard
        rw [hf] at hguard
        simp [hfalse] at hguard
  · intro herr hskip
    subst herr
    unfold recordSpanError
    split
    · rfl
    · split
      · rfl
      · simp [hskip]
  · intro e hp herr hrec hnot
    subst herr
    subst hp
    unfold recordSpanError
    split
    · rename_i h
      exact absurd h (by simp)
    · split
      · rename_i hguard
        rcases hrec with hnone | ⟨f, hf, htrue⟩
        · rw [hnone] at hguard
          simp at hguard
        · rw [hf] at hguard
          simp [htrue] at hguard
      · cases e with
        | errSkip =>
            have hd : opts.disableErrSkip = false := by
              by_cases hb : opts.disableErrSkip = true
              · exact absurd ⟨rfl, hb⟩ hnot
              · simpa using hb
            simp [hd]
        | errBadConn => rfl
        | errRemoveArgument => rfl
        | eof => rfl
        | named s => rfl

/-- Witness for C4: the ErrSkip sentinel with DisableErrSkip set is a
no-op, and an ordinary error is recorded with an Error status. -/
theorem claim_C4_witness :
    recordSpanError true { disableErrSkip := true } (some .errSkip) = [] ∧
    recordSpanError true {} (some (.named "net.OpError")) =
      [.spanRecordError (.named "net.OpError"), .spanSetStatus .error] := by
  constructor
  · exact (claim_C4 true { disableErrSkip := true }
      (some .errSkip)).2.2.2.1 rfl rfl
  · exact (claim_C4 true {} (some (.named "net.OpError"))).2.2.2.2.1
      (.named "net.OpError") rfl rfl (Or.inl rfl) (by simp)

/-- otRows.Close invokes the metric closure exactly once on every path. -/
theorem rowsClose_countP_metricInvoke (r : OtRows) (d : Option GoError) :
    (rowsClose r d).1.countP isMetricInvoke = 1 := by
  unfold rowsClose
  cases d with
  | none =>
      cases hb : r.spanPresent <;>
        simp [hb, List.countP_append, List.countP_cons, isMetricInvoke]
  | some e =>
      cases hb : r.spanPresent <;>
        simp [hb, List.countP_append, List.countP_cons, isMetricInvoke,
          recordSpanError_countP_metricInvoke]

/-- otConnector.Connect invokes the metric closure exactly once on every
path. -/
theorem connectorConnect_countP_metricInvoke (cfg : Config)
    (d : Option GoError) :
    (connectorConnect cfg d).1.countP isMetricInvoke = 1 := by
  unfold connectorConnect
  cases d with
  | none =>
      cases hb : (!cfg.spanOptions.omitConnectorConnect &&
          filterSpan cfg.spanOptions MethodConnectorConnect "" []) <;>
        simp [hb, List.countP_append, List.countP_cons, isMetricInvoke]
  | some e =>
      cases hb : (!cfg.spanOptions.omitConnectorConnect &&
          filterSpan cfg.spanOptions MethodConnectorConnect "" []) <;>
        simp [hb, List.countP_append, List.countP_cons, isMetricInvoke,
          recordSpanError_countP_metricInvoke]

/-- C1: for every connector Connect invocation and for every rows
result-set lifetime (creation through Close), the metric-recording closure
is invoked exactly once, and if a span was created, End is called on it
exactly once (span ends equal span starts, and at most one span is
started), regardless of whether the delegated call succeeds or errors. -/
theorem claim_C1 (cfg : Config) (connectErr closeErr : Option GoError) :
    ((connectorConnect cfg connectErr).1.countP isMetricInvoke = 1) ∧
    ((connectorConnect cfg connectErr).1.countP isSpanEnd =
       (connectorConnect cfg connectErr).1.countP isSpanStart) ∧
    ((connectorConnect cfg connectErr).1.countP isSpanStart ≤ 1) ∧
    (((newRows cfg).1 ++
        (rowsClose (newRows cfg).2 closeErr).1).countP isMetricInvoke = 1) ∧
    (((newRows cfg).1 ++
        (rowsClose (newRows cfg).2 closeErr).1).countP isSpanEnd =
       ((newRows cfg).1 ++
        (rowsClose (newRows cfg).2 closeErr).1).countP isSpanStart) ∧
    (((newRows cfg).1 ++
        (rowsClose (newRows cfg).2 closeErr).1).countP isSpanStart ≤ 1) := by
  have hconn :
      (connectorConnect cfg connectErr).1.countP isMetricInvoke = 1 ∧
      (connectorConnect cfg connectErr).1.countP isSpanEnd =
        (connectorConnect cfg connectErr).1.countP isSpanStart ∧
      (connectorConnect cfg connectErr).1.countP isSpanStart ≤ 1 := by
    unfold connectorConnect
    cases connectErr with
    | none =>
        cases hb : (!cfg.spanOptions.omitConnectorConnect &&
            filterSpan cfg.spanOptions MethodConnectorConnect "" []) <;>
          simp [hb, List.countP_append, List.countP_cons, isMetricInvoke,
            isSpanEnd, isSpanStart]
    | some e =>
        cases hb : (!cfg.spanOptions.omitConnectorConnect &&
            filterSpan cfg.spanOptions MethodConnectorConnect "" []) <;>
          simp [hb, List.countP_append, List.countP_cons, isMetricInvoke,
            isSpanEnd, isSpanStart, recordSpanError_countP_metricInvoke,
            recordSpanError_countP_spanEnd, recordSpanError_countP_spanStart]
  have hrows :
      (((newRows cfg).1 ++
          (rowsClose (newRows cfg).2 closeErr).1).countP isMetricInvoke = 1) ∧
      (((newRows cfg).1 ++
          (rowsClose (newRows cfg).2 closeErr).1).countP isSpanEnd =
         ((newRows cfg).1 ++
          (rowsClose (newRows cfg).2 closeErr).1).countP isSpanStart) ∧
      (((newRows cfg).1 ++
          (rowsClose (newRows cfg).2 closeErr).1).countP isSpanStart ≤ 1) := by
    unfold newRows rowsClose
    cases closeErr with
    | none =>
        cases hb : (!cfg.spanOptions.omitRows &&
            filterSpan cfg.spanOptions MethodRows "" []) <;>
          simp [hb, List.countP_append, List.countP_cons, isMetricInvoke,
            isSpanEnd, isSpanStart]
    | some e =>
        cases hb : (!cfg.spanOptions.omitRows &&
            filterSpan cfg.spanOptions MethodRows "" []) <;>
          simp [hb, List.countP_append, List.countP_cons, isMetricInvoke,
            isSpanEnd, isSpanStart, recordSpanError_countP_metricInvoke,
            recordSpanError_countP_spanEnd, recordSpanError_countP_spanStart]
  exact ⟨hconn.1, hconn.2.1, hconn.2.2, hrows.1, hrows.2.1, hrows.2.2⟩

/-- C7: otRows.Close invokes the metric closure exactly once and ends the
span (when present) even when the delegate Close errors; in the error case
the trace is: delegate close, error recorded on the span, span ended,
metric closure fired with the close error; the close error is returned
unchanged. -/
theorem claim_C7 (r : OtRows) (delegateErr : Option GoError) :
    ((rowsClose r delegateErr).1.countP isMetricInvoke = 1) ∧
    ((rowsClose r delegateErr).1.countP isSpanEnd =
       if r.spanPresent then 1 else 0) ∧
    ((rowsClose r delegateErr).2 = delegateErr) ∧
    (∀ e, delegateErr = some e →
       (rowsClose r delegateErr).1 =
         [TEvent.delegateCall "Close"] ++
           recordSpanError r.spanPresent r.cfg.spanOptions (some e) ++
           (if r.spanPresent then [TEvent.spanEnd] else []) ++
           [TEvent.metricInvoke (some e)]) := by
  refine ⟨?_, ?_, ?_, ?_⟩
  · unfold rowsClose
    cases delegateErr with
    | none =>
        cases hb : r.spanPresent <;>
          simp [hb, List.countP_append, List.countP_cons, isMetricInvoke]
    | some e =>
        cases hb : r.spanPresent <;>
          simp [hb, List.countP_append, List.countP_cons, isMetricInvoke,
            recordSpanError_countP_metricInvoke]
  · unfold rowsClose
    cases delegateErr with
    | none =>
        cases hb : r.spanPresent <;>
          simp [hb, List.countP_append, List.countP_cons, isSpanEnd]
    | some e =>
        cases hb : r.spanPresent <;>
          simp [hb, List.countP_append, List.countP_cons, isSpanEnd,
            recordSpanError_countP_spanEnd]
  · unfold rowsClose
    cases delegateErr <;> rfl
  · intro e he
    subst he
    rfl

/-- Witness for C7: a rows wrapper with an open span whose delegate Close
fails records the error, ends the span, then fires the metric closure. -/
theorem claim_C7_witness :
    (rowsClose ⟨true, {}⟩ (some (.named "close failed"))).1 =
      [.delegateCall "Close", .spanRecordError (.named "close failed"),
       .spanSetStatus .error, .spanEnd,
       .metricInvoke (some (.named "close failed"))] := by
  have h := (claim_C7 ⟨true, {}⟩ (some (.named "close failed"))).2.2.2
    (.named "close failed") rfl
  rw [h]
  rfl

/-- C8: otRows.Next never records io.EOF as an error: on end-of-data no
span-error call happens regardless of RecordError/DisableErrSkip; any other
non-nil delegate error is passed to recordSpanError; the delegate's error is
returned unchanged either way. -/
theorem claim_C8 (r : OtRows) (d : Option GoError) :
    ((rowsNext r (some .eof)).1.countP isSpanErrorEvent = 0) ∧
    ((rowsNext r d).2 = d) ∧
    (∀ e, e ≠ GoError.eof → d = some e →
       (rowsNext r d).1 =
         (if r.cfg.spanOptions.rowsNext ∧ r.spanPresent = true then
            [TEvent.spanAddEvent EventRowsNext]
          else []) ++
           [TEvent.delegateCall "Next"] ++
           recordSpanError r.spanPresent r.cfg.spanOptions (some e)) := by
  refine ⟨?_, ?_, ?_⟩
  · unfold rowsNext
    by_cases hb : r.cfg.spanOptions.rowsNext = true ∧ r.spanPresent = true <;>
      simp [hb, List.countP_append, List.countP_cons, isSpanErrorEvent]
  · unfold rowsNext
    cases d with
    | none => rfl
    | some e => cases e <;> rfl
  · intro e hne hd
    subst hd
    unfold rowsNext
    cases e with
    | eof => exact absurd rfl hne
    | errSkip => rfl
    | errBadConn => rfl
    | errRemoveArgument => rfl
    | named s => rfl

/-- Witness for C8: an exhausted cursor (io.EOF) triggers no span-error
calls even with an always-true RecordError, and an ordinary Next error is
handed to recordSpanError. -/
theorem claim_C8_witness :
    ((rowsNext ⟨true, { spanOptions := { recordError := some fun _ => true } }⟩
        (some .eof)).1.countP isSpanErrorEvent = 0) ∧
    (rowsNext ⟨true, {}⟩ (some (.named "scan error"))).1 =
      [.delegateCall "Next", .spanRecordError (.named "scan error"),
       .spanSetStatus .error] := by
  constructor
  · exact (claim_C8
      ⟨true, { spanOptions := { recordError := some fun _ => true } }⟩
      (some .eof)).1
  · have h := (claim_C8 ⟨true, {}⟩ (some (.named "scan error"))).2.2
      (.named "scan error") (by simp) rfl
    rw [h]
    rfl

/-- C3: a set omit switch (OmitRows, OmitConnectorConnect) suppresses the
span for that operation even when SpanFilter would return true, while the
metric closure still fires; a clear switch defers span creation entirely to
filterSpan, which is true when SpanFilter is nil and otherwise the
predicate's value. -/
theorem claim_C3 (cfg : Config) (d : Option GoError) :
    (cfg.spanOptions.omitRows = true →
       (newRows cfg).1 = [] ∧ (newRows cfg).2.spanPresent = false) ∧
    (cfg.spanOptions.omitRows = false →
       (newRows cfg).2.spanPresent =
         filterSpan cfg.spanOptions MethodRows "" []) ∧
    ((rowsClose (newRows cfg).2 d).1.countP isMetricInvoke = 1) ∧
    (cfg.spanOptions.omitConnectorConnect = true →
       (connectorConnect cfg d).1.countP isSpanStart = 0) ∧
    (cfg.spanOptions.omitConnectorConnect = false →
       (connectorConnect cfg d).1.countP isSpanStart =
         if filterSpan cfg.spanOptions MethodConnectorConnect "" [] then 1
         else 0) ∧
    ((connectorConnect cfg d).1.countP isMetricInvoke = 1) ∧
    (cfg.spanOptions.spanFilter = none →
       filterSpan cfg.spanOptions MethodRows "" [] = true) ∧
    (∀ f, cfg.spanOptions.spanFilter = some f →
       ∀ method query args,
         filterSpan cfg.spanOptions method query args = f method query args) := by
  refine ⟨?_, ?_, rowsClose_countP_metricInvoke (newRows cfg).2 d, ?_, ?_,
    connectorConnect_countP_metricInvoke cfg d, ?_, ?_⟩
  · intro h
    unfold newRows
    simp [h]
  · intro h
    unfold newRows
    simp [h]
  · intro h
    unfold connectorConnect
    cases d <;>
      simp [h, List.countP_append, List.countP_cons, isSpanStart,
        recordSpanError_countP_spanStart]
  · intro h
    unfold connectorConnect
    cases hf : filterSpan cfg.spanOptions MethodConnectorConnect "" [] <;>
      cases d <;>
        simp [h, hf, List.countP_append, List.countP_cons, isSpanStart,
          recordSpanError_countP_spanStart]
  · intro h
    unfold filterSpan
    simp [h]
  · intro f h method query args
    unfold filterSpan
    simp [h]

/-- Witness for C3: with OmitRows set and an always-true SpanFilter, no
rows span is created but the metric closure still fires once; with the
switch clear the same filter yields a span. -/
theorem claim_C3_witness :
    ((newRows { spanOptions :=
        { omitRows := true, spanFilter := some fun _ _ _ => true } }).1 = []) ∧
    ((newRows { spanOptions :=
        { omitRows := true, spanFilter := some fun _ _ _ => true } }).2.spanPresent
      = false) ∧
    ((rowsClose (newRows { spanOptions :=
        { omitRows := true, spanFilter := some fun _ _ _ => true } }).2
        none).1.countP isMetricInvoke = 1) ∧
    ((newRows { spanOptions :=
        { spanFilter := some fun _ _ _ => true } }).2.spanPresent = true) := by
  refine ⟨?_, ?_, ?_, ?_⟩
  · exact ((claim_C3 { spanOptions :=
      { omitRows := true, spanFilter := some fun _ _ _ => true } } none).1
        rfl).1
  · exact ((claim_C3 { spanOptions :=
      { omitRows := true, spanFilter := some fun _ _ _ => true } } none).1
        rfl).2
  · exact (claim_C3 { spanOptions :=
      { omitRows := true, spanFilter := some fun _ _ _ => true } } none).2.2.1
  · have h := (claim_C3 { spanOptions :=
      { spanFilter := some fun _ _ _ => true } } none).2.1 rfl
    rw [h]
    rfl

/-- The status tag recordLegacyLatency chooses, in positive form: "ok" for
nil errors and for the skip sentinel under DisableSkipErrMeasurement,
"error" otherwise. -/
theorem legacyStatus_eq (cfg : Config) (err : Option GoError) :
    legacyStatus cfg err =
      if err = none ∨
          (cfg.disableSkipErrMeasurement = true ∧ err = some GoError.errSkip)
      then "ok" else "error" := by
  cases err with
  | none => simp [legacyStatus]
  | some e =>
      simp only [legacyStatus]
      by_cases h1 : cfg.disableSkipErrMeasurement = true
      · by_cases h2 : e = GoError.errSkip
        · subst h2
          simp [h1]
        · simp [h1, h2]
      · simp [h1]

/-- The error-type attributes recordDuration appends, in positive form. -/
theorem recordDuration_errAttrs_eq (cfg : Config) (err : Option GoError) :
    (match err with
      | some e =>
          if cfg.disableSkipErrMeasurement ∧ e = GoError.errSkip then []
          else ErrorTypeAttributes (some e)
      | none => ([] : List Attr)) =
      if err ≠ none ∧
          ¬(cfg.disableSkipErrMeasurement = true ∧ err = some GoError.errSkip)
      then ErrorTypeAttributes err else [] := by
  cases err with
  | none => simp
  | some e =>
      by_cases h1 : cfg.disableSkipErrMeasurement = true
      · by_cases h2 : e = GoError.errSkip
        · subst h2
          simp [h1]
        · simp [h1, h2]
      · simp [h1]

/-- C2: one invocation of the recordMetric closure emits, in dual-emit
mode, exactly two histogram observations from the one measured duration —
the legacy latency instrument in milliseconds tagged with the method and an
ok/error status, and the stable duration instrument in seconds tagged with
the operation name plus error-type attributes only for a non-nil
(unsuppressed) error; stable-only emits only the stable observation and
legacy-only only the legacy one. -/
theorem claim_C2 (cfg : Config) (method : Method) (query : String)
    (args : List NamedValue) (ns : ℕ) (err : Option GoError) :
    (cfg.semConvStabilityOptIn = .optInDup →
       recordMetricInvoke cfg method query args ns err =
         [.metricRecord .legacyLatency ((ns : ℚ) / 1000000)
            (metricBaseAttrs cfg method query args err ++
              [⟨"method", method⟩,
               ⟨"status",
                 if err = none ∨
                     (cfg.disableSkipErrMeasurement = true ∧
                       err = some GoError.errSkip)
                 then "ok" else "error"⟩]),
          .metricRecord .duration ((ns : ℚ) / 1000000000)
            (metricBaseAttrs cfg method query args err ++
              [⟨"db.operation.name", method⟩] ++
              (if err ≠ none ∧
                   ¬(cfg.disableSkipErrMeasurement = true ∧
                      err = some GoError.errSkip)
               then ErrorTypeAttributes err else []))]) ∧
    (cfg.semConvStabilityOptIn = .optInStable →
       recordMetricInvoke cfg method query args ns err =
         [.metricRecord .duration ((ns : ℚ) / 1000000000)
            (metricBaseAttrs cfg method query args err ++
              [⟨"db.operation.name", method⟩] ++
              (if err ≠ none ∧
                   ¬(cfg.disableSkipErrMeasurement = true ∧
                      err = some GoError.errSkip)
               then ErrorTypeAttributes err else []))]) ∧
    (cfg.semConvStabilityOptIn = .optInNone →
       recordMetricInvoke cfg method query args ns err =
         [.metricRecord .legacyLatency ((ns : ℚ) / 1000000)
            (metricBaseAttrs cfg method query args err ++
              [⟨"method", method⟩,
               ⟨"status",
                 if err = none ∨
                     (cfg.disableSkipErrMeasurement = true ∧
                       err = some GoError.errSkip)
                 then "ok" else "error"⟩])]) := by
  refine ⟨?_, ?_, ?_⟩ <;> intro h <;>
    simp only [recordMetricInvoke, recordLegacyLatency, recordDuration, h,
      metricBaseAttrs, legacyStatus_eq, recordDuration_errAttrs_eq,
      List.append_assoc, List.singleton_append, List.cons_append,
      List.nil_append]

/-- Witness for C2, the spec's example: dual-emit, method sql.conn.query,
2 s duration, no error — the legacy histogram records 2000 (ms) tagged
status=ok, the stable histogram records 2 (s) tagged with the operation
name and no error-type attribute. -/
theorem claim_C2_witness :
    recordMetricInvoke sampleDupConfig "sql.conn.query" "SELECT 1" []
        2000000000 none =
      [.metricRecord .legacyLatency 2000
         [⟨"method", "sql.conn.query"⟩, ⟨"status", "ok"⟩],
       .metricRecord .duration 2
         [⟨"db.operation.name", "sql.conn.query"⟩]] := by
  have h := (claim_C2 sampleDupConfig "sql.conn.query" "SELECT 1" []
    2000000000 none).1 rfl
  rw [h]
  norm_num [metricBaseAttrs, sampleDupConfig]

/-- C5: the query-text attributes a span carries match the active
semantic-convention mode. With DisableQuery false and a query-bearing
operation, the query-text attributes of the span's attribute list are
exactly NewDBQueryTextAttributes of the mode — one legacy db.statement
attribute in legacy-only mode, legacy plus stable db.query.text in
dual-emit, one stable attribute in stable-only, each valued with the
literal query string; with DisableQuery true, zero query-text attributes
are attached regardless of mode. The base attributes and getter results
are assumed to carry no query-text keys of their own, and the
DBQueryTextAttributes field is assumed wired to the mode as the config
constructor wires it. -/
theorem claim_C5 (cfg : Config) (method : Method) (query : String)
    (args : List NamedValue) (enable : Bool)
    (hwire : cfg.dbQueryTextAttributes =
      NewDBQueryTextAttributes cfg.semConvStabilityOptIn)
    (hbase : cfg.attributes.countP isQueryTextAttr = 0)
    (hget : ∀ g, cfg.attributesGetter = some g →
      (g method query args).countP isQueryTextAttr = 0) :
    (cfg.spanOptions.disableQuery = false →
       (createSpanAttrList cfg true method query args).filter isQueryTextAttr =
         NewDBQueryTextAttributes cfg.semConvStabilityOptIn query) ∧
    (NewDBQueryTextAttributes .optInNone query =
       [⟨"db.statement", query⟩]) ∧
    (NewDBQueryTextAttributes .optInDup query =
       [⟨"db.statement", query⟩, ⟨"db.query.text", query⟩]) ∧
    (NewDBQueryTextAttributes .optInStable query =
       [⟨"db.query.text", query⟩]) ∧
    (cfg.spanOptions.disableQuery = true →
       (createSpanAttrList cfg enable method query args).filter
         isQueryTextAttr = []) := by
  have hbaseNil : cfg.attributes.filter isQueryTextAttr = [] := by
    rw [List.filter_eq_nil_iff]
    intro a ha
    have := List.countP_eq_zero.mp hbase a ha
    simpa using this
  have hgetNil : (match cfg.attributesGetter with
      | some g => g method query args
      | none => ([] : List Attr)).filter isQueryTextAttr = [] := by
    match hg : cfg.attributesGetter with
    | none => rfl
    | some g =>
        rw [List.filter_eq_nil_iff]
        intro a ha
        have := List.countP_eq_zero.mp (hget g hg) a ha
        simpa using this
  have hquery : (NewDBQueryTextAttributes cfg.semConvStabilityOptIn
      query).filter isQueryTextAttr =
      NewDBQueryTextAttributes cfg.semConvStabilityOptIn query := by
    rw [List.filter_eq_self]
    intro a ha
    cases hm : cfg.semConvStabilityOptIn <;>
      rw [hm] at ha <;>
      simp [NewDBQueryTextAttributes] at ha <;>
      first
        | (rcases ha with ha | ha <;> simp [ha, isQueryTextAttr])
        | simp [ha, isQueryTextAttr]
  refine ⟨?_, rfl, rfl, rfl, ?_⟩
  · intro hd
    unfold createSpanAttrList
    rw [hwire]
    match hg : cfg.attributesGetter with
    | none =>
        simp only [hd]
        simp [List.filter_append, hbaseNil, hquery]
    | some g =>
        have : (g method query args).filter isQueryTextAttr = [] := by
          simpa [hg] using hgetNil
        simp only [hd]
        simp [List.filter_append, hbaseNil, hquery, this]
  · intro hd
    unfold createSpanAttrList
    match hg : cfg.attributesGetter with
    | none =>
        simp only [hd]
        simp [List.filter_append, hbaseNil]
    | some g =>
        have : (g method query args).filter isQueryTextAttr = [] := by
          simpa [hg] using hgetNil
        simp only [hd]
        simp [List.filter_append, hbaseNil, this]

/-- Witness for C5: a stable-only config attaches exactly the stable
db.query.text attribute; the same config with DisableQuery set attaches
none. -/
theorem claim_C5_witness :
    ((createSpanAttrList sampleStableConfig true "sql.conn.query" "SELECT 1"
        []).filter isQueryTextAttr = [⟨"db.query.text", "SELECT 1"⟩]) ∧
    ((createSpanAttrList
        { sampleStableConfig with spanOptions := { disableQuery := true } }
        true "sql.conn.query" "SELECT 1" []).filter isQueryTextAttr = []) := by
  constructor
  · have h := (claim_C5 sampleStableConfig "sql.conn.query" "SELECT 1" [] true
      rfl rfl (fun g hg => nomatch hg)).1 rfl
    rw [h]
    rfl
  · exact (claim_C5
      { sampleStableConfig with spanOptions := { disableQuery := true } }
      "sql.conn.query" "SELECT 1" [] true rfl rfl
      (fun g hg => nomatch hg)).2.2.2.2 rfl

/-- C10: namedValueToValue rejects the argument list exactly when some
element carries a non-empty Name, and otherwise returns the Values in
their original order. -/
theorem claim_C10 (named : List NamedValue) :
    ((∀ p ∈ named, p.name = "") →
       namedValueToValue named = .ok (named.map NamedValue.value)) ∧
    ((∃ p ∈ named, p.name ≠ "") →
       namedValueToValue named =
         .error "sql: driver does not support the use of Named Parameters") := by
  induction named with
  | nil =>
      refine ⟨fun _ => rfl, ?_⟩
      rintro ⟨p, hp, _⟩
      exact absurd hp (List.not_mem_nil p)
  | cons p rest ih =>
      constructor
      · intro h
        have hp : p.name = "" := h p (List.mem_cons_self p rest)
        have hlen : ¬p.name.length > 0 := by
          rw [hp]
          decide
        unfold namedValueToValue
        rw [if_neg hlen, ih.1 (fun q hq => h q (List.mem_cons_of_mem p hq))]
        simp
      · rintro ⟨q, hq, hname⟩
        unfold namedValueToValue
        by_cases hlen : p.name.length > 0
        · rw [if_pos hlen]
        · have hp : p.name = "" := by
            have hz : p.name.length = 0 := by omega
            cases hn : p.name with
            | mk data =>
                rw [hn] at hz
                cases data with
                | nil => rfl
                | cons c cs => simp [String.length] at hz
          rw [if_neg hlen]
          rcases List.mem_cons.mp hq with hq | hq
          · subst hq
            exact absurd hp hname
          · rw [ih.2 ⟨q, hq, hname⟩]

/-- Witness for C10: an all-positional list maps to its values in order; a
named parameter is rejected. -/
theorem claim_C10_witness :
    (namedValueToValue [⟨"", 1, "v1"⟩, ⟨"", 2, "v2"⟩] = .ok ["v1", "v2"]) ∧
    (namedValueToValue [⟨"id", 1, "v1"⟩] =
       .error "sql: driver does not support the use of Named Parameters") := by
  constructor
  · have h := (claim_C10 [⟨"", 1, "v1"⟩, ⟨"", 2, "v2"⟩]).1 (by decide)
    rw [h]
    rfl
  · exact (claim_C10 [⟨"id", 1, "v1"⟩]).2
      ⟨⟨"id", 1, "v1"⟩, List.mem_cons_self _ _, by decide⟩

/-- C6 (evaluation at the failing input): the aliasing attribute building
of createSpan / the recordMetric closure in utils.go
(`attrs := cfg.Attributes` followed by append) writes the appended
query-text attribute into the spare capacity slot of the shared backing
array of cfg.Attributes, mutating it in place, whereas the copy-on-append
variant of the same functions leaves the config's backing array untouched;
both produce the same attribute values for the span. -/
theorem claim_C6_alias_mutates_shared_backing :
    ((buildAttrsAliasing sampleMem sampleSlice true
        [⟨"db.statement", "SELECT 1"⟩] false []).1 =
      [[⟨"db.system", "mysql"⟩, ⟨"db.statement", "SELECT 1"⟩]]) ∧
    ((buildAttrsAliasing sampleMem sampleSlice true
        [⟨"db.statement", "SELECT 1"⟩] false []).1 ≠ sampleMem) ∧
    ((buildAttrsCopy sampleMem sampleSlice true
        [⟨"db.statement", "SELECT 1"⟩] false []).1.getD 0 [] =
      [⟨"db.system", "mysql"⟩, ⟨"", ""⟩]) ∧
    (sliceContents
        (buildAttrsAliasing sampleMem sampleSlice true
          [⟨"db.statement", "SELECT 1"⟩] false []).1
        (buildAttrsAliasing sampleMem sampleSlice true
          [⟨"db.statement", "SELECT 1"⟩] false []).2 =
      [⟨"db.system", "mysql"⟩, ⟨"db.statement", "SELECT 1"⟩]) ∧
    (sliceContents
        (buildAttrsCopy sampleMem sampleSlice true
          [⟨"db.statement", "SELECT 1"⟩] false []).1
        (buildAttrsCopy sampleMem sampleSlice true
          [⟨"db.statement", "SELECT 1"⟩] false []).2 =
      [⟨"db.system", "mysql"⟩, ⟨"db.statement", "SELECT 1"⟩]) := by
  refine ⟨?_, ?_, ?_, ?_, ?_⟩ <;> decide

/-- C9 (evaluation): the transaction wrapper's Commit and Rollback perform
no metric recording at all — their traces contain zero metric-closure
invocations on every path (success and error), although the span part of
the pattern (start, record error, end) and the absence of query text do
hold. A span is created exactly when AllowRoot is set or the stored context
carries a valid span context. -/
theorem claim_C9_tx_records_no_metric :
    ((txCommit {} true none).1.countP isMetricInvoke = 0) ∧
    ((txCommit {} true (some (.named "commit failed"))).1.countP
        isMetricInvoke = 0) ∧
    ((txRollback {} true none).1.countP isMetricInvoke = 0) ∧
    ((txRollback {} true (some (.named "rollback failed"))).1.countP
        isMetricInvoke = 0) ∧
    ((txCommit { spanOptions := { allowRoot := true } } false none).1.countP
        isMetricInvoke = 0) ∧
    ((txCommit {} true none).1 =
      [.spanStart "sql.tx.commit" [], .delegateCall "Commit", .spanEnd]) ∧
    ((txRollback {} true (some (.named "rollback failed"))).1 =
      [.spanStart "sql.tx.rollback" [], .delegateCall "Rollback",
       .spanRecordError (.named "rollback failed"), .spanSetStatus .error,
       .spanEnd]) ∧
    ((txCommit {} false none).1 = [.delegateCall "Commit"]) := by
  refine ⟨?_, ?_, ?_, ?_, ?_, ?_, ?_, ?_⟩ <;> rfl

end Otelsql
